import Mathlib

/-!
Verification of the music-genre-classification prediction core
(`backend/app/main.py`, `backend/app/utils.py`, `backend/app/schemas.py`).

The embedding uses exact rational arithmetic (`ℚ`) in place of Python
floats.  Python's `ZeroDivisionError` has no analogue in `ℚ` (where
`x / 0 = 0`), so every statement about a division site carries the
positivity fact that shows the Python code cannot raise there.
Randomness (`np.random.rand`) and nondeterministic scorer behaviour are
passed in as explicit parameters.
-/

namespace MusicGenre

/-- `GENRE_LABELS` from `main.py`: the fixed ordered list of ten genres. -/
def GENRE_LABELS : List String :=
  ["pop", "rock", "hip_hop", "jazz", "electronic",
   "classical", "r_b", "country", "metal", "folk"]

/-- `TrackData` (pydantic model in `main.py` / `schemas.py`) with its
declared default values. -/
structure TrackData where
  track_name : String
  artists : String
  album_name : String := ""
  danceability : ℚ := 1/2
  energy : ℚ := 1/2
  loudness : ℚ := -10
  speechiness : ℚ := 1/20
  acousticness : ℚ := 1/10
  instrumentalness : ℚ := 0
  liveness : ℚ := 1/10
  valence : ℚ := 1/2
  tempo : ℚ := 120
  popularity : ℚ := 50
deriving DecidableEq

/-- The `Field(ge=..., le=...)` bounds of `schemas.py` (`TrackData`),
which pydantic enforces on every request body before `main.py` runs. -/
def TrackData.valid (t : TrackData) : Prop :=
  0 ≤ t.danceability ∧ t.danceability ≤ 1 ∧
  0 ≤ t.energy ∧ t.energy ≤ 1 ∧
  -60 ≤ t.loudness ∧ t.loudness ≤ 0 ∧
  0 ≤ t.speechiness ∧ t.speechiness ≤ 1 ∧
  0 ≤ t.acousticness ∧ t.acousticness ≤ 1 ∧
  0 ≤ t.instrumentalness ∧ t.instrumentalness ≤ 1 ∧
  0 ≤ t.liveness ∧ t.liveness ≤ 1 ∧
  0 ≤ t.valence ∧ t.valence ≤ 1 ∧
  60 ≤ t.tempo ∧ t.tempo ≤ 200 ∧
  0 ≤ t.popularity ∧ t.popularity ≤ 100

instance (t : TrackData) : Decidable t.valid := by
  unfold TrackData.valid; infer_instance

/-- The feature vector assembled in `predict_genres` (`main.py`,
`features = [...]`), in its exact order. -/
def TrackData.features (t : TrackData) : List ℚ :=
  [t.danceability, t.energy, t.loudness, t.speechiness, t.acousticness,
   t.instrumentalness, t.liveness, t.valence, t.tempo, t.popularity]

/-- `PredictionResponse` of `main.py`; the ISO timestamp field is wall-clock
output and is omitted from the embedding. -/
structure PredictionResponse where
  track : String
  artists : String
  predictions : List (String × ℚ)
  top_genres : List String
  confidence : ℚ
  model_version : String
deriving DecidableEq

/-- `np.mean` on a list of scalars: sum over length. -/
def npMean (xs : List ℚ) : ℚ := xs.sum / xs.length

/-- `[genre for genre, prob in predictions.items() if prob > 0.5]`
(the inline top-genre selection of `predict_genres` / `demo_predict`). -/
def top_genres_of (predictions : List (String × ℚ)) : List String :=
  (predictions.filter (fun p => decide ((1 : ℚ)/2 < p.2))).map Prod.fst

/-- `base_probs` of `demo_predict` (`main.py`): one capped weighted formula
per genre, in dict-insertion order. -/
def demo_base_probs (t : TrackData) : List (String × ℚ) :=
  [("pop", min (7/10) (t.danceability * (8/10) + t.popularity * (2/1000))),
   ("rock", min (6/10) (t.energy * (7/10) + (1 - t.danceability) * (3/10))),
   ("hip_hop", min (5/10) (t.speechiness * 5 + t.energy * (3/10))),
   ("jazz", min (4/10) (t.acousticness * (6/10) + (1 - t.energy) * (2/10))),
   ("electronic", min (8/10) (t.energy * (7/10) + t.danceability * (5/10))),
   ("classical", min (3/10) (t.instrumentalness * (8/10) + t.acousticness * (4/10))),
   ("r_b", min (5/10) (t.danceability * (6/10) + t.valence * (3/10))),
   ("country", min (4/10) (t.acousticness * (5/10) + t.valence * (3/10))),
   ("metal", min (3/10) (t.energy * (8/10) + (1 - t.valence) * (2/10))),
   ("folk", min (3/10) (t.acousticness * (7/10) + (1 - t.energy) * (2/10)))]

/-- `demo_predict` from `main.py`.  The division by `total` is unguarded in
the source (Python would raise `ZeroDivisionError` when `total = 0`); the
theorems below establish `total > 0` for every pydantic-valid input. -/
def demo_predict (t : TrackData) : PredictionResponse :=
  let base_probs := demo_base_probs t
  let total := (base_probs.map Prod.snd).sum
  let predictions := base_probs.map (fun p => (p.1, p.2 / total * (8/10)))
  { track := t.track_name
    artists := t.artists
    predictions := predictions
    top_genres := top_genres_of predictions
    confidence := npMean (predictions.map Prod.snd)
    model_version := "DEMO-MODE" }

/-- Outcome of calling `MODEL.predict_proba` in `predict_genres`:
either the call raises, or it returns a sequence of rows.  `isNd` records
whether `probabilities[0]` is an `np.ndarray` (the branch condition of the
shape-handling code); a flat scalar sequence ends in the raising branch of
the surrounding `try` and is covered by `raises`. -/
inductive ScorerResult where
  | raises : ScorerResult
  | output (isNd : Bool) (rows : List (List ℚ)) : ScorerResult
deriving DecidableEq

/-- The trained scorer as an opaque function of the feature vector. -/
def Scorer : Type := List ℚ → ScorerResult

/-- `np.array([prob[1] for prob in probabilities])` — index 1 of every row;
`Except.error` models the `IndexError` a short row raises. -/
def positiveEntries : List (List ℚ) → Except Unit (List ℚ)
  | [] => Except.ok []
  | row :: rest =>
    match row.get? 1, positiveEntries rest with
    | some x, Except.ok xs => Except.ok (x :: xs)
    | _, _ => Except.error ()

/-- The shape-handling block of `predict_genres` (`main.py`):
`len(probabilities) > 0` branches on the row kind, and the empty case
substitutes `np.random.rand(len(GENRE_LABELS))`, modelled by the explicit
`rand` argument. -/
def extract_probabilities (isNd : Bool) (rows : List (List ℚ)) (rand : List ℚ) :
    Except Unit (List ℚ) :=
  if 0 < rows.length then
    if isNd then positiveEntries rows
    else Except.ok rows.headI
  else Except.ok rand

/-- The loop `for i, genre in enumerate(GENRE_LABELS)` of `predict_genres`,
carrying the running index `i`: genre `i` receives `probabilities[i]` when
`i < len(probabilities)` and `0.0` otherwise. -/
def build_preds_from (probs : List ℚ) : ℕ → List String → List (String × ℚ)
  | _, [] => []
  | i, g :: gs =>
    (g, if i < probs.length then probs.getD i 0 else 0) :: build_preds_from probs (i+1) gs

/-- The `predictions` dictionary built in the trained path of
`predict_genres`. -/
def build_predictions (probs : List ℚ) : List (String × ℚ) :=
  build_preds_from probs 0 GENRE_LABELS

/-- `predict_genres` from `main.py`.  `model = none` is `MODEL is None`
(demo mode); any exception inside the `try` block — from `predict_proba`
itself or from indexing a malformed row — lands in the `except` handler,
which returns `demo_predict`. -/
def predict_genres (model : Option Scorer) (rand : List ℚ) (t : TrackData) :
    PredictionResponse :=
  match model with
  | none => demo_predict t
  | some scorer =>
    match scorer t.features with
    | ScorerResult.raises => demo_predict t
    | ScorerResult.output isNd rows =>
      match extract_probabilities isNd rows rand with
      | Except.error _ => demo_predict t
      | Except.ok probs =>
        let predictions := build_predictions probs
        { track := t.track_name
          artists := t.artists
          predictions := predictions
          top_genres := top_genres_of predictions
          confidence := npMean (predictions.map Prod.snd)
          model_version := "SVM-v2.0" }

/-- `BatchPredictionResponse` of `main.py`. -/
structure BatchPredictionResponse where
  predictions : List PredictionResponse
  total_tracks : ℕ
  average_confidence : ℚ

/-- One iteration of the batch loop in `predict_genres_batch`:
append the response, accumulate its confidence. -/
def batch_step (model : Option Scorer) (rand : ℕ → List ℚ)
    (acc : List PredictionResponse × ℚ) (p : ℕ × TrackData) :
    List PredictionResponse × ℚ :=
  let resp := predict_genres model (rand p.1) p.2
  (acc.1 ++ [resp], acc.2 + resp.confidence)

/-- `predict_genres_batch` from `main.py`: the sequential loop over the
tracks, then `avg = total / len(predictions) if predictions else 0.0`.
`rand` supplies the random draw each per-track call may consume. -/
def predict_genres_batch (model : Option Scorer) (rand : ℕ → List ℚ)
    (tracks : List TrackData) : BatchPredictionResponse :=
  let r := tracks.enum.foldl (batch_step model rand) ([], 0)
  { predictions := r.1
    total_tracks := r.1.length
    average_confidence := if r.1.isEmpty then 0 else r.2 / r.1.length }

/-- A feature dictionary as `utils.py` consumes it: `features.get(key, d)`
is `Option.getD`; a missing key is `none`. -/
structure FeaturesDict where
  danceability : Option ℚ := none
  energy : Option ℚ := none
  loudness : Option ℚ := none
  speechiness : Option ℚ := none
  acousticness : Option ℚ := none
  instrumentalness : Option ℚ := none
  liveness : Option ℚ := none
  valence : Option ℚ := none
  tempo : Option ℚ := none
  popularity : Option ℚ := none
deriving DecidableEq

/-- `base_probs` of `generate_mock_predictions` (`utils.py`), including the
`features.get(..., default)` lookups. -/
def mock_base_probs (f : FeaturesDict) : List (String × ℚ) :=
  [("pop", min (7/10) ((f.danceability.getD (1/2)) * (8/10) + (f.popularity.getD 50) * (2/1000))),
   ("rock", min (6/10) ((f.energy.getD (1/2)) * (7/10) + (1 - f.danceability.getD (1/2)) * (3/10))),
   ("hip_hop", min (5/10) ((f.speechiness.getD (1/20)) * 5 + (f.energy.getD (1/2)) * (3/10))),
   ("jazz", min (4/10) ((f.acousticness.getD (1/10)) * (6/10) + (1 - f.energy.getD (1/2)) * (2/10))),
   ("electronic", min (8/10) ((f.energy.getD (1/2)) * (7/10) + (f.danceability.getD (1/2)) * (5/10))),
   ("classical", min (3/10) ((f.instrumentalness.getD 0) * (8/10) + (f.acousticness.getD (1/10)) * (4/10))),
   ("r_b", min (5/10) ((f.danceability.getD (1/2)) * (6/10) + (f.valence.getD (1/2)) * (3/10))),
   ("country", min (4/10) ((f.acousticness.getD (1/10)) * (5/10) + (f.valence.getD (1/2)) * (3/10))),
   ("metal", min (3/10) ((f.energy.getD (1/2)) * (8/10) + (1 - f.valence.getD (1/2)) * (2/10))),
   ("folk", min (3/10) ((f.acousticness.getD (1/10)) * (7/10) + (1 - f.energy.getD (1/2)) * (2/10)))]

/-- `generate_mock_predictions` from `utils.py`: rescale to total mass 0.8
when the raw sum is positive, otherwise the equal-share constant 0.08. -/
def generate_mock_predictions (f : FeaturesDict) : List (String × ℚ) :=
  let base_probs := mock_base_probs f
  let total := (base_probs.map Prod.snd).sum
  if 0 < total then base_probs.map (fun p => (p.1, p.2 / total * (8/10)))
  else base_probs.map (fun p => (p.1, 2/25))

/-- `normalize_predictions` from `utils.py`: divide by the sum when it is
positive, otherwise return the input unchanged. -/
def normalize_predictions (predictions : List (String × ℚ)) : List (String × ℚ) :=
  let total := (predictions.map Prod.snd).sum
  if 0 < total then predictions.map (fun p => (p.1, p.2 / total))
  else predictions

/-- Python's `max` over the values of a nonempty collection
(`max(predictions.values())`); callers guard the empty case. -/
def pyMax : List ℚ → ℚ
  | [] => 0
  | x :: xs => xs.foldl max x

/-- `calculate_confidence` from `utils.py`: the tiered re-weighting of the
maximum probability.  (This function is defined in the repository but never
called by the prediction endpoints of `main.py`.) -/
def calculate_confidence (predictions : List (String × ℚ)) : ℚ :=
  if predictions.isEmpty then 0
  else
    let max_prob := pyMax (predictions.map Prod.snd)
    if 7/10 < max_prob then min 1 (max_prob * (11/10))
    else if 3/10 < max_prob then max_prob
    else max_prob * (8/10)

/-! ### Demo (heuristic) path: shape of the normalized predictions -/

lemma demo_predictions_eq (t : TrackData) :
    (demo_predict t).predictions =
      (demo_base_probs t).map
        (fun p => (p.1, p.2 / ((demo_base_probs t).map Prod.snd).sum * (8/10))) := rfl

lemma demo_confidence_eq (t : TrackData) :
    (demo_predict t).confidence = npMean ((demo_predict t).predictions.map Prod.snd) := rfl

lemma demo_raw_nonneg (t : TrackData) (hv : t.valid) :
    ∀ p ∈ demo_base_probs t, 0 ≤ p.2 := by
  obtain ⟨hd0, hd1, he0, he1, hl0, hl1, hs0, hs1, ha0, ha1, hi0, hi1,
    hlv0, hlv1, hw0, hw1, ht0, ht1, hp0, hp1⟩ := hv
  intro p hp
  simp only [demo_base_probs, List.mem_cons, List.not_mem_nil, or_false] at hp
  rcases hp with h | h | h | h | h | h | h | h | h | h <;> subst h <;>
    exact le_min (by norm_num) (by nlinarith)

lemma demo_total_pos (t : TrackData) (hv : t.valid) :
    0 < ((demo_base_probs t).map Prod.snd).sum := by
  obtain ⟨hd0, hd1, he0, he1, hl0, hl1, hs0, hs1, ha0, ha1, hi0, hi1,
    hlv0, hlv1, hw0, hw1, ht0, ht1, hp0, hp1⟩ := hv
  have h1 : (0:ℚ) ≤ min (7/10) (t.danceability * (8/10) + t.popularity * (2/1000)) :=
    le_min (by norm_num) (by linarith)
  have h2 : (0:ℚ) ≤ min (6/10) (t.energy * (7/10) + (1 - t.danceability) * (3/10)) :=
    le_min (by norm_num) (by linarith)
  have h3 : (0:ℚ) ≤ min (5/10) (t.speechiness * 5 + t.energy * (3/10)) :=
    le_min (by norm_num) (by linarith)
  have h4 : (0:ℚ) ≤ min (4/10) (t.acousticness * (6/10) + (1 - t.energy) * (2/10)) :=
    le_min (by norm_num) (by linarith)
  have h5 : (0:ℚ) ≤ min (8/10) (t.energy * (7/10) + t.danceability * (5/10)) :=
    le_min (by norm_num) (by linarith)
  have h6 : (0:ℚ) ≤ min (3/10) (t.instrumentalness * (8/10) + t.acousticness * (4/10)) :=
    le_min (by norm_num) (by linarith)
  have h7 : (0:ℚ) ≤ min (5/10) (t.danceability * (6/10) + t.valence * (3/10)) :=
    le_min (by norm_num) (by linarith)
  have h8 : (0:ℚ) ≤ min (4/10) (t.acousticness * (5/10) + t.valence * (3/10)) :=
    le_min (by norm_num) (by linarith)
  have h9 : (0:ℚ) ≤ min (3/10) (t.energy * (8/10) + (1 - t.valence) * (2/10)) :=
    le_min (by norm_num) (by linarith)
  have h10 : (0:ℚ) ≤ min (3/10) (t.acousticness * (7/10) + (1 - t.energy) * (2/10)) :=
    le_min (by norm_num) (by linarith)
  have key : (0:ℚ) < min (4/10) (t.acousticness * (6/10) + (1 - t.energy) * (2/10)) +
      min (3/10) (t.energy * (8/10) + (1 - t.valence) * (2/10)) := by
    rcases le_or_lt t.energy 0 with he | he
    · have hj : (0:ℚ) < min (4/10) (t.acousticness * (6/10) + (1 - t.energy) * (2/10)) :=
        lt_min (by norm_num) (by linarith)
      linarith
    · have hm : (0:ℚ) < min (3/10) (t.energy * (8/10) + (1 - t.valence) * (2/10)) :=
        lt_min (by norm_num) (by linarith)
      linarith
  simp only [demo_base_probs, List.map_cons, List.map_nil, List.sum_cons, List.sum_nil,
    add_zero]
  linarith

lemma sum_map_scale (l : List (String × ℚ)) (c T : ℚ) :
    ((l.map (fun p => (p.1, p.2 / T * c))).map Prod.snd).sum
      = (l.map Prod.snd).sum / T * c := by
  induction l with
  | nil => simp
  | cons a l ih =>
    simp only [List.map_cons, List.sum_cons, ih]
    ring

lemma demo_predictions_length (t : TrackData) : (demo_predict t).predictions.length = 10 := by
  rw [demo_predictions_eq, List.length_map]
  simp [demo_base_probs]

lemma demo_predictions_sum (t : TrackData)
    (h : 0 < ((demo_base_probs t).map Prod.snd).sum) :
    ((demo_predict t).predictions.map Prod.snd).sum = 8/10 := by
  rw [demo_predictions_eq, sum_map_scale, div_self h.ne', one_mul]

lemma demo_confidence_mean (t : TrackData)
    (h : 0 < ((demo_base_probs t).map Prod.snd).sum) :
    (demo_predict t).confidence = 2/25 := by
  rw [demo_confidence_eq]
  unfold npMean
  rw [demo_predictions_sum t h, List.length_map, demo_predictions_length]
  norm_num

/-- C10: for every `TrackData` whose feature fields satisfy the pydantic
range constraints of `schemas.py`, the sum of the ten heuristic raw scores
of `demo_predict` is strictly positive — so the unguarded division by that
sum in `demo_predict` never divides by zero. -/
theorem valid_features_total_pos (t : TrackData) (hv : t.valid) :
    0 < ((demo_base_probs t).map Prod.snd).sum ∧
    ((demo_base_probs t).map Prod.snd).sum ≠ 0 :=
  ⟨demo_total_pos t hv, (demo_total_pos t hv).ne'⟩

theorem valid_features_total_pos_example :
    0 < ((demo_base_probs { track_name := "track", artists := "artist" }).map Prod.snd).sum ∧
    ((demo_base_probs { track_name := "track", artists := "artist" }).map Prod.snd).sum ≠ 0 :=
  valid_features_total_pos { track_name := "track", artists := "artist" }
    (by norm_num [TrackData.valid])

/-- C2: for every range-valid `TrackData`, the heuristic-path probabilities
returned by `demo_predict` sum to at most `0.8` (in exact arithmetic the
sum is `0.8`) and each individual probability lies in `[0, 0.8]`. -/
theorem heuristic_probs_bounded (t : TrackData) (hv : t.valid) :
    ((demo_predict t).predictions.map Prod.snd).sum ≤ 8/10 ∧
    ∀ p ∈ (demo_predict t).predictions, 0 ≤ p.2 ∧ p.2 ≤ 8/10 := by
  have hT := demo_total_pos t hv
  constructor
  · exact (demo_predictions_sum t hT).le
  · intro p hp
    rw [demo_predictions_eq] at hp
    obtain ⟨q, hq, rfl⟩ := List.mem_map.mp hp
    have h0 : 0 ≤ q.2 := demo_raw_nonneg t hv q hq
    have hle : q.2 ≤ ((demo_base_probs t).map Prod.snd).sum :=
      List.single_le_sum
        (fun x hx => by
          obtain ⟨r, hr, rfl⟩ := List.mem_map.mp hx
          exact demo_raw_nonneg t hv r hr)
        q.2 (List.mem_map_of_mem Prod.snd hq)
    have h1 : q.2 / ((demo_base_probs t).map Prod.snd).sum ≤ 1 := (div_le_one hT).mpr hle
    have h2 : 0 ≤ q.2 / ((demo_base_probs t).map Prod.snd).sum := by positivity
    exact ⟨by nlinarith, by nlinarith⟩

theorem heuristic_probs_bounded_example :
    ((demo_predict { track_name := "track", artists := "artist" }).predictions.map
        Prod.snd).sum ≤ 8/10 ∧
    ∀ p ∈ (demo_predict { track_name := "track", artists := "artist" }).predictions,
      0 ≤ p.2 ∧ p.2 ≤ 8/10 :=
  heuristic_probs_bounded { track_name := "track", artists := "artist" }
    (by norm_num [TrackData.valid])

/-- C9: whenever the ten heuristic raw scores have a strictly positive sum,
the demo path returns confidence exactly `0.08`, independent of the input
features: the confidence is the mean of the ten normalized probabilities,
which always sum to `0.8`. -/
theorem demo_confidence_const (t : TrackData)
    (h : 0 < ((demo_base_probs t).map Prod.snd).sum) :
    (demo_predict t).confidence = 2/25 :=
  demo_confidence_mean t h

theorem demo_confidence_const_example :
    (demo_predict { track_name := "track", artists := "artist" }).confidence = 2/25 :=
  demo_confidence_const { track_name := "track", artists := "artist" }
    (by norm_num [demo_base_probs, min_def])

/-! ### Normalizer (`normalize_predictions` of `utils.py`) -/

lemma sum_map_div (l : List (String × ℚ)) (T : ℚ) :
    ((l.map (fun p => (p.1, p.2 / T))).map Prod.snd).sum = (l.map Prod.snd).sum / T := by
  induction l with
  | nil => simp
  | cons a l ih =>
    simp only [List.map_cons, List.sum_cons, ih]
    ring

/-- C7: the normalizer divides each value by the sum when that sum is
strictly positive (the results then sum to 1) and returns the mapping
unchanged when the sum is `≤ 0`; in particular it is idempotent — applying
it to a mapping whose values sum to 1 changes nothing (exactly, in rational
arithmetic). -/
theorem normalize_cases_and_idempotent (preds : List (String × ℚ)) :
    ((0 : ℚ) < (preds.map Prod.snd).sum →
      normalize_predictions preds =
        preds.map (fun p => (p.1, p.2 / (preds.map Prod.snd).sum)) ∧
      ((normalize_predictions preds).map Prod.snd).sum = 1) ∧
    ((preds.map Prod.snd).sum ≤ 0 → normalize_predictions preds = preds) ∧
    ((preds.map Prod.snd).sum = 1 → normalize_predictions preds = preds) := by
  refine ⟨fun h => ⟨?_, ?_⟩, fun h => ?_, fun h => ?_⟩
  · simp only [normalize_predictions]
    rw [if_pos h]
  · simp only [normalize_predictions]
    rw [if_pos h, sum_map_div, div_self h.ne']
  · simp only [normalize_predictions]
    rw [if_neg (not_lt.mpr h)]
  · simp only [normalize_predictions]
    rw [if_pos (h ▸ one_pos), h]
    simp

theorem normalize_idempotent_example :
    normalize_predictions [("pop", (1:ℚ)/2), ("rock", 1/2)] =
      [("pop", (1:ℚ)/2), ("rock", 1/2)] :=
  (normalize_cases_and_idempotent [("pop", (1:ℚ)/2), ("rock", 1/2)]).2.2 (by norm_num)

/-! ### Mock predictions (`generate_mock_predictions` of `utils.py`) -/

/-- C6: if the ten raw heuristic scores sum to `≤ 0`,
`generate_mock_predictions` takes the guarded equal-share branch instead of
dividing: each of the ten genres receives exactly `0.08`. -/
theorem zero_sum_mock_equal_share (f : FeaturesDict)
    (h : ((mock_base_probs f).map Prod.snd).sum ≤ 0) :
    (generate_mock_predictions f).map Prod.fst = GENRE_LABELS ∧
    ∀ p ∈ generate_mock_predictions f, p.2 = 2/25 := by
  have hg : generate_mock_predictions f = (mock_base_probs f).map (fun p => (p.1, 2/25)) := by
    simp only [generate_mock_predictions]
    rw [if_neg (not_lt.mpr h)]
  constructor
  · rw [hg]
    simp [mock_base_probs, GENRE_LABELS]
  · intro p hp
    rw [hg] at hp
    obtain ⟨q, hq, rfl⟩ := List.mem_map.mp hp
    rfl

theorem zero_sum_mock_equal_share_example :
    (generate_mock_predictions { danceability := some 0
                                 energy := some (-1)
                                 speechiness := some (-1)
                                 acousticness := some (-1)
                                 instrumentalness := some (-1)
                                 valence := some (-1)
                                 popularity := some 0 }).map Prod.fst = GENRE_LABELS ∧
    ∀ p ∈ generate_mock_predictions { danceability := some 0
                                      energy := some (-1)
                                      speechiness := some (-1)
                                      acousticness := some (-1)
                                      instrumentalness := some (-1)
                                      valence := some (-1)
                                      popularity := some 0 }, p.2 = 2/25 :=
  zero_sum_mock_equal_share _ (by norm_num [mock_base_probs, min_def])

/-! ### Top-genre selection -/

/-- C5: the top-genre selection returns exactly the genre labels whose
probability is strictly greater than 0.5; when every probability equals 0.5
the selection is empty, and no count bound is enforced — it can also
contain all ten labels. -/
theorem top_genres_strict_threshold :
    (∀ preds : List (String × ℚ), ∀ g : String,
      g ∈ top_genres_of preds ↔ ∃ q : ℚ, (g, q) ∈ preds ∧ 1/2 < q) ∧
    top_genres_of (GENRE_LABELS.map (fun g => (g, 1/2))) = [] ∧
    top_genres_of (GENRE_LABELS.map (fun g => (g, 3/5))) = GENRE_LABELS := by
  refine ⟨fun preds g => ?_, ?_, ?_⟩
  · constructor
    · intro hg
      obtain ⟨p, hp, rfl⟩ := List.mem_map.mp hg
      have hf := List.mem_filter.mp hp
      exact ⟨p.2, by rw [Prod.mk.eta]; exact hf.1, of_decide_eq_true hf.2⟩
    · rintro ⟨q, hq, hlt⟩
      exact List.mem_map.mpr
        ⟨(g, q), List.mem_filter.mpr ⟨hq, decide_eq_true hlt⟩, rfl⟩
  · norm_num [top_genres_of, GENRE_LABELS, List.filter]
  · norm_num [top_genres_of, GENRE_LABELS, List.filter]

/-! ### Trained path: the scorer-output adapter -/

lemma positiveEntries_eq : ∀ (rows : List (List ℚ)), (∀ r ∈ rows, 2 ≤ r.length) →
    positiveEntries rows = Except.ok (rows.map (fun r => r.getD 1 0))
  | [], _ => rfl
  | r :: rest, h => by
    have hrest := positiveEntries_eq rest (fun x hx => h x (List.mem_cons_of_mem r hx))
    have h2 := h r (List.mem_cons_self r rest)
    match r, h2 with
    | a :: b :: r', _ =>
      simp [positiveEntries, hrest]

lemma build_preds_from_length (probs : List ℚ) :
    ∀ (j : ℕ) (L : List String), (build_preds_from probs j L).length = L.length
  | _, [] => rfl
  | j, g :: gs => by
    simp [build_preds_from, build_preds_from_length probs (j+1) gs]

lemma build_predictions_length (probs : List ℚ) :
    (build_predictions probs).length = 10 := by
  rw [build_predictions, build_preds_from_length]
  rfl

lemma build_preds_from_get? (probs : List ℚ) :
    ∀ (L : List String) (j i : ℕ),
      (build_preds_from probs j L).get? i =
        (L.get? i).map (fun g => (g, if j + i < probs.length then probs.getD (j + i) 0 else 0))
  | [], j, i => by simp [build_preds_from]
  | g :: gs, j, 0 => by simp [build_preds_from]
  | g :: gs, j, i+1 => by
    simp only [build_preds_from, List.get?_cons_succ]
    rw [show j + (i + 1) = j + 1 + i from by omega]
    exact build_preds_from_get? probs gs (j+1) i

lemma build_predictions_get? (probs : List ℚ) (i : ℕ) :
    (build_predictions probs).get? i =
      (GENRE_LABELS.get? i).map
        (fun g => (g, if i < probs.length then probs.getD i 0 else 0)) := by
  rw [build_predictions, build_preds_from_get? probs GENRE_LABELS 0 i]
  simp

/-- C4: the adapter accepts both scorer output shapes — a list of
one-vs-rest pairs (`isNd = true`: the positive-class entry, index 1 of each
row, is taken) and a list whose first element is the single row of
per-genre probabilities (`isNd = false`) — and genre positions at or beyond
the length of the adapted score array are assigned probability `0.0`. -/
theorem adapter_handles_both_shapes (s : Scorer) (t : TrackData) (rand : List ℚ) :
    (∀ rows, s t.features = ScorerResult.output true rows → rows ≠ [] →
      (∀ r ∈ rows, 2 ≤ r.length) →
      (predict_genres (some s) rand t).predictions =
        build_predictions (rows.map (fun r => r.getD 1 0))) ∧
    (∀ row rest, s t.features = ScorerResult.output false (row :: rest) →
      (predict_genres (some s) rand t).predictions = build_predictions row) ∧
    (∀ probs i, probs.length ≤ i →
      (build_predictions probs).get? i =
        (GENRE_LABELS.get? i).map (fun g => (g, 0))) := by
  refine ⟨fun rows hs hne hlen => ?_, fun row rest hs => ?_, fun probs i hi => ?_⟩
  · have hpos : 0 < rows.length := List.length_pos.mpr hne
    have hx : extract_probabilities true rows rand =
        Except.ok (rows.map (fun r => r.getD 1 0)) := by
      simp [extract_probabilities, hpos, positiveEntries_eq rows hlen]
    simp only [predict_genres, hs, hx]
  · have hx : extract_probabilities false (row :: rest) rand = Except.ok row := by
      simp [extract_probabilities]
    simp only [predict_genres, hs, hx]
  · rw [build_predictions_get? probs i]
    have hni : ¬ (i < probs.length) := by omega
    simp [hni]

theorem adapter_handles_both_shapes_example :
    (predict_genres (some (fun _ => ScorerResult.output true [[1/10, 9/10], [3/10, 7/10]]))
        [] { track_name := "track", artists := "artist" }).predictions =
      build_predictions [(9:ℚ)/10, 7/10] :=
  (adapter_handles_both_shapes
      (fun _ => ScorerResult.output true [[1/10, 9/10], [3/10, 7/10]])
      { track_name := "track", artists := "artist" } []).1
    [[1/10, 9/10], [3/10, 7/10]] rfl (by simp) (by decide)

/-! ### Trained path: fallback behaviour (claim C3) -/

/-- C3 fails on the code as stated: a trained scorer whose output is the
malformed empty shape does not trigger the heuristic fallback.  The code
substitutes `np.random.rand` values (here the explicit draw `0.5,…,0.5`)
and returns them under the trained-path tag `SVM-v2.0`. -/
theorem empty_scorer_output_keeps_trained_tag :
    (predict_genres (some (fun _ => ScorerResult.output true []))
        (List.replicate 10 ((1:ℚ)/2))
        { track_name := "track", artists := "artist" }).model_version = "SVM-v2.0" ∧
    (predict_genres (some (fun _ => ScorerResult.output true []))
        (List.replicate 10 ((1:ℚ)/2))
        { track_name := "track", artists := "artist" }).predictions =
      build_predictions (List.replicate 10 ((1:ℚ)/2)) ∧
    (demo_predict { track_name := "track", artists := "artist" }).model_version
      = "DEMO-MODE" ∧
    predict_genres (some (fun _ => ScorerResult.output true []))
        (List.replicate 10 ((1:ℚ)/2)) { track_name := "track", artists := "artist" } ≠
      demo_predict { track_name := "track", artists := "artist" } := by
  refine ⟨rfl, rfl, rfl, fun h => ?_⟩
  have hv : ("SVM-v2.0" : String) = "DEMO-MODE" :=
    congrArg PredictionResponse.model_version h
  simp at hv

/-- C3 amended: when the trained scorer raises, or when processing its
output raises (a one-vs-rest row without a positive-class entry), the
single-track predict operation returns exactly the heuristic-path result;
the model-version tags distinguish the two paths (`DEMO-MODE` on every
fallback, `SVM-v2.0` whenever the adapter succeeds — including the
empty-output case, which yields random scores rather than a fallback). -/
theorem scorer_exception_falls_back (s : Scorer) (t : TrackData) (rand : List ℚ) :
    (s t.features = ScorerResult.raises →
      predict_genres (some s) rand t = demo_predict t) ∧
    (∀ isNd rows, s t.features = ScorerResult.output isNd rows →
      extract_probabilities isNd rows rand = Except.error () →
      predict_genres (some s) rand t = demo_predict t) ∧
    (demo_predict t).model_version = "DEMO-MODE" ∧
    (∀ isNd rows probs, s t.features = ScorerResult.output isNd rows →
      extract_probabilities isNd rows rand = Except.ok probs →
      (predict_genres (some s) rand t).model_version = "SVM-v2.0") := by
  refine ⟨fun h => ?_, fun isNd rows h hx => ?_, rfl, fun isNd rows probs h hx => ?_⟩
  · simp only [predict_genres, h]
  · simp only [predict_genres, h, hx]
  · simp only [predict_genres, h, hx]

theorem scorer_exception_falls_back_example :
    predict_genres (some (fun _ => ScorerResult.raises)) []
        { track_name := "track", artists := "artist" } =
      demo_predict { track_name := "track", artists := "artist" } :=
  (scorer_exception_falls_back (fun _ => ScorerResult.raises)
      { track_name := "track", artists := "artist" } []).1 rfl

/-! ### Confidence (claim C1) -/

/-- C1 fails on the code: `main.py` computes the confidence as
`np.mean(list(predictions.values()))`, not as the tiered function of the
maximum probability (`calculate_confidence` of `utils.py`, which the
endpoints never call).  At the default feature values the heuristic path
returns confidence `0.08` while the tiered function of the maximum
probability gives `48/415`. -/
theorem confidence_ne_tiered_at_default_track :
    (predict_genres none [] { track_name := "track", artists := "artist" }).confidence ≠
      calculate_confidence
        (predict_genres none [] { track_name := "track", artists := "artist" }).predictions := by
  show (demo_predict { track_name := "track", artists := "artist" }).confidence ≠
    calculate_confidence
      (demo_predict { track_name := "track", artists := "artist" }).predictions
  have h1 : (demo_predict { track_name := "track", artists := "artist" }).confidence
      = 2/25 :=
    demo_confidence_mean _ (by norm_num [demo_base_probs, min_def])
  have h2 : calculate_confidence
      (demo_predict { track_name := "track", artists := "artist" }).predictions
      = 48/415 := by
    rw [demo_predictions_eq]
    norm_num [demo_base_probs, min_def, calculate_confidence, pyMax, max_def]
  rw [h1, h2]
  norm_num

/-- C1 amended: on both the trained path and the heuristic path, the
confidence field equals the arithmetic mean of the ten post-normalization
genre probabilities — their sum divided by 10 — independent of the tiered
`calculate_confidence` function. -/
theorem confidence_eq_mean_of_probs (model : Option Scorer) (rand : List ℚ)
    (t : TrackData) :
    (predict_genres model rand t).confidence =
      ((predict_genres model rand t).predictions.map Prod.snd).sum / 10 := by
  have demo : ∀ s : TrackData, (demo_predict s).confidence =
      ((demo_predict s).predictions.map Prod.snd).sum / 10 := by
    intro s
    rw [demo_confidence_eq]
    unfold npMean
    rw [List.length_map, demo_predictions_length]
    norm_num
  cases model with
  | none => exact demo t
  | some scorer =>
    cases hs : scorer t.features with
    | raises =>
      simp only [predict_genres, hs]
      exact demo t
    | output isNd rows =>
      cases hx : extract_probabilities isNd rows rand with
      | error e =>
        simp only [predict_genres, hs, hx]
        exact demo t
      | ok probs =>
        simp only [predict_genres, hs, hx]
        show npMean ((build_predictions probs).map Prod.snd) = _
        unfold npMean
        rw [List.length_map, build_predictions_length]
        norm_num

/-! ### Batch prediction (claim C8) -/

lemma batch_foldl_eq (model : Option Scorer) (rand : ℕ → List ℚ) :
    ∀ (l : List (ℕ × TrackData)) (acc : List PredictionResponse) (c : ℚ),
      l.foldl (batch_step model rand) (acc, c) =
        (acc ++ l.map (fun p => predict_genres model (rand p.1) p.2),
         c + (l.map (fun p => (predict_genres model (rand p.1) p.2).confidence)).sum)
  | [], acc, c => by simp
  | p :: l, acc, c => by
    simp only [List.foldl_cons, List.map_cons, List.sum_cons]
    show List.foldl (batch_step model rand)
        (acc ++ [predict_genres model (rand p.1) p.2],
         c + (predict_genres model (rand p.1) p.2).confidence) l = _
    rw [batch_foldl_eq model rand l]
    simp [List.append_assoc, add_assoc]

/-- C8: batch prediction returns per-track results in input order, its
average confidence is the arithmetic mean (sum over count) of the per-track
confidences, and the empty batch yields average confidence 0, zero total
tracks and an empty prediction sequence. -/
theorem batch_order_mean_empty (model : Option Scorer) (rand : ℕ → List ℚ)
    (tracks : List TrackData) :
    (predict_genres_batch model rand tracks).predictions =
      tracks.enum.map (fun p => predict_genres model (rand p.1) p.2) ∧
    (predict_genres_batch model rand tracks).total_tracks = tracks.length ∧
    (tracks ≠ [] →
      (predict_genres_batch model rand tracks).average_confidence =
        ((predict_genres_batch model rand tracks).predictions.map
            (fun r => r.confidence)).sum / tracks.length) ∧
    (tracks = [] →
      (predict_genres_batch model rand tracks).average_confidence = 0 ∧
      (predict_genres_batch model rand tracks).total_tracks = 0 ∧
      (predict_genres_batch model rand tracks).predictions = []) := by
  have hfold := batch_foldl_eq model rand tracks.enum [] 0
  have hb : predict_genres_batch model rand tracks =
      { predictions := tracks.enum.map (fun p => predict_genres model (rand p.1) p.2)
        total_tracks := (tracks.enum.map
          (fun p => predict_genres model (rand p.1) p.2)).length
        average_confidence :=
          if (tracks.enum.map (fun p => predict_genres model (rand p.1) p.2)).isEmpty
          then 0
          else (0 + (tracks.enum.map
              (fun p => (predict_genres model (rand p.1) p.2).confidence)).sum) /
            (tracks.enum.map (fun p => predict_genres model (rand p.1) p.2)).length } := by
    simp only [predict_genres_batch, hfold, List.nil_append]
  refine ⟨by rw [hb], by rw [hb]; simp, fun hne => ?_, fun he => ?_⟩
  · rw [hb]
    have hlen : (tracks.enum.map
        (fun p => predict_genres model (rand p.1) p.2)).length = tracks.length := by
      simp
    have hne' : ¬ (tracks.enum.map
        (fun p => predict_genres model (rand p.1) p.2)).isEmpty = true := by
      simp [List.isEmpty_iff, hne]
    simp only [hne', if_false, hlen, zero_add, List.map_map]
    rfl
  · subst he
    refine ⟨?_, ?_, ?_⟩ <;> rw [hb] <;> simp

theorem batch_order_mean_empty_example :
    (predict_genres_batch none (fun _ => []) []).average_confidence = 0 ∧
    (predict_genres_batch none (fun _ => []) []).total_tracks = 0 ∧
    (predict_genres_batch none (fun _ => []) []).predictions = [] :=
  (batch_order_mean_empty none (fun _ => []) []).2.2.2 rfl

end MusicGenre
